import Mathlib

/-!
Shallow embedding of the checksum verification engine of s3verify
(`main.go`, here `src/unnamed/part_001`, and the checksum helpers of
`src/unnamed/part_000`).

Modelling conventions:
* Go `byte` is `Nat` (values `0 ≤ b < 256` where it matters), `int32`/`int64`
  are `Int`, `*string` is `Option String`.
* A Go `hash.Hash` instance is represented by the list of bytes written to it
  so far, together with a finalization function `digest : List Nat → List Nat`
  (Go contract: `Sum(nil)` returns the digest of everything written since the
  instance was created and does not change the state).  `crypto/sha1` and
  `crypto/sha256` are external libraries and are kept abstract: the engine is
  parameterized by their digest functions `sha1D`, `sha256D`.  `hash/crc32`
  (IEEE and Castagnoli) is implemented concretely below so that theorems can
  be evaluated on closed inputs.
* `base64.StdEncoding.EncodeToString` is implemented concretely.
-/

namespace S3Verify

set_option maxRecDepth 40000

/-- A Go `byte`, modelled as `Nat`. -/
abbrev Byte := Nat

/-- The standard base64 alphabet used by `encoding/base64` `StdEncoding`. -/
def base64Chars : List Char :=
  "ABCDEFGHIJKLMNOPQRSTUVWXYZabcdefghijklmnopqrstuvwxyz0123456789+/".toList

/-- The base64 character for a 6-bit group. -/
def b64c (n : Nat) : Char := base64Chars.getD n 'A'

/-- `base64.StdEncoding.EncodeToString`: standard base64 with `=` padding. -/
def base64Encode : List Byte → String
  | [] => ""
  | [a] =>
    String.mk [b64c (a / 4 % 64), b64c (a % 4 * 16), '=', '=']
  | [a, b] =>
    String.mk [b64c (a / 4 % 64), b64c (a % 4 * 16 + b / 16), b64c (b % 16 * 4), '=']
  | a :: b :: c :: rest =>
    String.mk [b64c (a / 4 % 64), b64c (a % 4 * 16 + b / 16),
               b64c (b % 16 * 4 + c / 64), b64c (c % 64)]
      ++ base64Encode rest

/-- Reflected polynomial of `crc32.IEEE`. -/
def crc32Poly : Nat := 0xedb88320

/-- Reflected polynomial of `crc32.Castagnoli`. -/
def crc32cPoly : Nat := 0x82f63b78

/-- One bit step of the reflected CRC-32 computation. -/
def crcStep (poly c : Nat) : Nat :=
  if c % 2 = 1 then (c / 2) ^^^ poly else c / 2

/-- Absorb one byte into a reflected CRC-32 state. -/
def crcByte (poly crc : Nat) (b : Byte) : Nat :=
  (List.range 8).foldl (fun c _ => crcStep poly c) (crc ^^^ (b % 256))

/-- The CRC-32 value of a byte sequence for the given reflected polynomial. -/
def crc32Raw (poly : Nat) (data : List Byte) : Nat :=
  (data.foldl (crcByte poly) 0xffffffff) ^^^ 0xffffffff

/-- Digest bytes of `crc32.NewIEEE()`: the CRC-32 value, big-endian. -/
def crc32Digest (data : List Byte) : List Byte :=
  let s := crc32Raw crc32Poly data
  [s / 2 ^ 24 % 256, s / 2 ^ 16 % 256, s / 2 ^ 8 % 256, s % 256]

/-- Digest bytes of `crc32.New(crc32.MakeTable(crc32.Castagnoli))`. -/
def crc32cDigest (data : List Byte) : List Byte :=
  let s := crc32Raw crc32cPoly data
  [s / 2 ^ 24 % 256, s / 2 ^ 16 % 256, s / 2 ^ 8 % 256, s % 256]

/-- `s3Types.ChecksumAlgorithmSha1`. -/
def algSHA1 : String := "SHA1"

/-- `s3Types.ChecksumAlgorithmSha256`. -/
def algSHA256 : String := "SHA256"

/-- `s3Types.ChecksumAlgorithmCrc32`. -/
def algCRC32 : String := "CRC32"

/-- `s3Types.ChecksumAlgorithmCrc32c`. -/
def algCRC32C : String := "CRC32C"

/-- `s3Types.Checksum`: the remote object checksum descriptor. -/
structure Checksum where
  checksumCRC32 : Option String
  checksumCRC32C : Option String
  checksumSHA1 : Option String
  checksumSHA256 : Option String
deriving DecidableEq

/-- `s3Types.ObjectPart`: one part record of a multipart object. -/
structure ObjectPart where
  checksumCRC32 : Option String
  checksumCRC32C : Option String
  checksumSHA1 : Option String
  checksumSHA256 : Option String
  partNumber : Int
  size : Int
deriving DecidableEq

/-- `s3Types.GetObjectAttributesParts`: the part listing of the response. -/
structure ObjectParts where
  isTruncated : Bool
  parts : List ObjectPart
  totalPartsCount : Int
deriving DecidableEq

/-- The fields of `GetObjectAttributesOutput` that the engine reads. -/
structure ObjectAttrs where
  checksum : Option Checksum
  objectParts : Option ObjectParts
  objectSize : Int
deriving DecidableEq

/-- Result of a Go function returning `(T, error)`, with a third outcome for a
nil-pointer dereference (a runtime panic). -/
inductive GoResult (α : Type) where
  | ok (val : α)
  | errMsg (msg : String)
  | nilDeref
deriving DecidableEq

/-- `getChecksumAlgorithm` (part_000 lines 96-107): test the four optional
fields in the order SHA1, SHA256, CRC32, CRC32C and return the first populated
field's algorithm; error if none is populated. -/
def getChecksumAlgorithm (v : Checksum) : GoResult String :=
  match v.checksumSHA1 with
  | some _ => .ok algSHA1
  | none =>
    match v.checksumSHA256 with
    | some _ => .ok algSHA256
    | none =>
      match v.checksumCRC32 with
      | some _ => .ok algCRC32
      | none =>
        match v.checksumCRC32C with
        | some _ => .ok algCRC32C
        | none => .errMsg "unsupported checksum algorithm"

/-- `getChecksum` (part_000 lines 109-122): switch on the algorithm and return
`*v.ChecksumXXX`.  The Go code dereferences the field pointer without a nil
check, so an absent field is a nil-pointer dereference (`.nilDeref`). -/
def getChecksum (v : Checksum) (algorithm : String) : GoResult String :=
  if algorithm = algSHA1 then
    match v.checksumSHA1 with
    | some s => .ok s
    | none => .nilDeref
  else if algorithm = algSHA256 then
    match v.checksumSHA256 with
    | some s => .ok s
    | none => .nilDeref
  else if algorithm = algCRC32 then
    match v.checksumCRC32 with
    | some s => .ok s
    | none => .nilDeref
  else if algorithm = algCRC32C then
    match v.checksumCRC32C with
    | some s => .ok s
    | none => .nilDeref
  else
    .errMsg ("unsupported checksum algorithm, " ++ algorithm)

/-- `getPartChecksum` (part_000 lines 124-137): same shape as `getChecksum`
but on a part record; also dereferences without a nil check. -/
def getPartChecksum (v : ObjectPart) (algorithm : String) : GoResult String :=
  if algorithm = algSHA1 then
    match v.checksumSHA1 with
    | some s => .ok s
    | none => .nilDeref
  else if algorithm = algSHA256 then
    match v.checksumSHA256 with
    | some s => .ok s
    | none => .nilDeref
  else if algorithm = algCRC32 then
    match v.checksumCRC32 with
    | some s => .ok s
    | none => .nilDeref
  else if algorithm = algCRC32C then
    match v.checksumCRC32C with
    | some s => .ok s
    | none => .nilDeref
  else
    .errMsg ("unsupported checksum algorithm, " ++ algorithm)

/-- `io.Copy(h, io.NewSectionReader(f, offset, size))` absorbs the bytes of
`f` in `[offset, offset+size)` (fewer if the file is shorter). -/
def sectionRead (f : List Byte) (offset size : Int) : List Byte :=
  (f.drop offset.toNat).take size.toNat

/-- The per-part mismatch test of the loop (part_001 lines 318-321): the
computed encoded digest is compared against every populated checksum field of
the part record, in the order SHA1, SHA256, CRC32, CRC32C. -/
def partFails (partSumEncoded : String) (part : ObjectPart) : Bool :=
  (match part.checksumSHA1 with
   | some s => partSumEncoded != s
   | none => false) ||
  (match part.checksumSHA256 with
   | some s => partSumEncoded != s
   | none => false) ||
  (match part.checksumCRC32 with
   | some s => partSumEncoded != s
   | none => false) ||
  (match part.checksumCRC32C with
   | some s => partSumEncoded != s
   | none => false)

/-- The outcome of one verification run (the distinct terminations of
`main`, part_001 lines 240-341). -/
inductive Outcome where
  | noChecksum
  | objectSizeMismatch (objectSize fileSize : Int)
  | unsupportedAlgorithm
  | partMismatch (partNumber lo hi : Int)
  | checksumMismatch
  | matchOk
deriving DecidableEq

/-- The multipart loop (part_001 lines 308-341).  `hBuf` is the byte buffer of
the single hash instance `h` created before the loop (the code never calls
`Reset`, so writes accumulate across parts), `ccBuf` is the buffer of the
`checksumOfChecksums` instance.  After the last part the composite digest is
base64-encoded and compared to the remote object digest. -/
def verifyParts (digest : List Byte → List Byte) (objSum : String) (f : List Byte) :
    List ObjectPart → Int → List Byte → List Byte → Outcome
  | [], _, _, ccBuf =>
    if base64Encode (digest ccBuf) = objSum then .matchOk else .checksumMismatch
  | part :: rest, offset, hBuf, ccBuf =>
    let hBuf2 := hBuf ++ sectionRead f offset part.size
    let partSum := digest hBuf2
    let partSumEncoded := base64Encode partSum
    if partFails partSumEncoded part then
      .partMismatch part.partNumber offset (offset + part.size)
    else
      verifyParts digest objSum f rest (offset + part.size) hBuf2 (ccBuf ++ partSum)

/-- The inline algorithm selection of `main` (part_001 lines 252-277): pick
the remote digest string and the digest function of the first populated field,
in the order SHA1, SHA256, CRC32, CRC32C. -/
def selectChecksum (sha1D sha256D : List Byte → List Byte) (c : Checksum) :
    Option (String × (List Byte → List Byte)) :=
  match c.checksumSHA1 with
  | some s => some (s, sha1D)
  | none =>
    match c.checksumSHA256 with
    | some s => some (s, sha256D)
    | none =>
      match c.checksumCRC32 with
      | some s => some (s, crc32Digest)
      | none =>
        match c.checksumCRC32C with
        | some s => some (s, crc32cDigest)
        | none => none

/-- The verification stages after the object size check (part_001 lines
252-341): algorithm selection, then the single-part or the multipart path. -/
def verifyChecksums (sha1D sha256D : List Byte → List Byte) (c : Checksum)
    (objectParts : Option ObjectParts) (f : List Byte) : Outcome :=
  match selectChecksum sha1D sha256D c with
  | none => .unsupportedAlgorithm
  | some (objSum, digest) =>
    match objectParts with
    | none =>
      if base64Encode (digest f) = objSum then .matchOk else .checksumMismatch
    | some op => verifyParts digest objSum f op.parts 0 [] []

/-- The verification engine of `main` (part_001 lines 240-341): checksum
presence check, object size check, then `verifyChecksums`. -/
def verify (sha1D sha256D : List Byte → List Byte) (attrs : ObjectAttrs)
    (f : List Byte) : Outcome :=
  match attrs.checksum with
  | none => .noChecksum
  | some c =>
    if attrs.objectSize = (f.length : Int) then
      verifyChecksums sha1D sha256D c attrs.objectParts f
    else
      .objectSizeMismatch attrs.objectSize (f.length : Int)

/-- Every part of the list passes its comparison when the loop is started at
the given offset and hash buffer (mirrors the loop state evolution). -/
def allPass (digest : List Byte → List Byte) (f : List Byte) :
    List ObjectPart → Int → List Byte → Bool
  | [], _, _ => true
  | part :: rest, offset, hBuf =>
    let hBuf2 := hBuf ++ sectionRead f offset part.size
    !partFails (base64Encode (digest hBuf2)) part &&
      allPass digest f rest (offset + part.size) hBuf2

/-- The loop offset after processing the given parts. -/
def endOffset (offset : Int) : List ObjectPart → Int
  | [] => offset
  | part :: rest => endOffset (offset + part.size) rest

/-- The buffer of the shared hash instance after processing the given parts. -/
def endBuf (f : List Byte) (offset : Int) (hBuf : List Byte) :
    List ObjectPart → List Byte
  | [] => hBuf
  | part :: rest => endBuf f (offset + part.size) (hBuf ++ sectionRead f offset part.size) rest

/-- The sequence of digests the loop computes for the parts, in loop order
(each is the digest of the shared hash buffer after that part's bytes). -/
def codePartSums (digest : List Byte → List Byte) (f : List Byte) :
    List ObjectPart → Int → List Byte → List (List Byte)
  | [], _, _ => []
  | part :: rest, offset, hBuf =>
    let hBuf2 := hBuf ++ sectionRead f offset part.size
    digest hBuf2 :: codePartSums digest f rest (offset + part.size) hBuf2

/-- The algorithm priority order of the spec: `(name, field)` pairs in the
fixed order SHA1, SHA256, CRC32, CRC32C. -/
def specOrderFields (c : Checksum) : List (String × Option String) :=
  [(algSHA1, c.checksumSHA1), (algSHA256, c.checksumSHA256),
   (algCRC32, c.checksumCRC32), (algCRC32C, c.checksumCRC32C)]

/-- The spec's selection: the first populated field's algorithm. -/
def specFirstAlgorithm (c : Checksum) : Option String :=
  ((specOrderFields c).find? (fun x => x.2.isSome)).map (fun x => x.1)

/-- Spec-side reading of a Go field lookup by pointer dereference. -/
def optResult : Option String → GoResult String
  | some s => .ok s
  | none => .nilDeref

/-- The populated checksum values of a part record, in field test order. -/
def populatedPartChecksums (part : ObjectPart) : List String :=
  [part.checksumSHA1, part.checksumSHA256, part.checksumCRC32,
   part.checksumCRC32C].filterMap id

/-- Placeholder digest function for the SHA parameters in runs that select a
CRC algorithm (the SHA digest functions are then never invoked). -/
def dummyDigest : List Byte → List Byte := fun _ => []

/-- `base64Encode (crc32Digest [0])`: the CRC32 digest of the byte `0x00`. -/
def crcZeroEnc : String := "0gLvjQ=="

/-- Part 1 of the two-part CRC32 fixture: its remote digest is the correct
CRC32 of its own byte range `[0, 1)` of the file `[0, 0]`. -/
def c1Part1 : ObjectPart := ⟨some crcZeroEnc, none, none, none, 1, 1⟩

/-- Part 2 of the two-part CRC32 fixture: its remote digest is the correct
CRC32 of its own byte range `[1, 2)` of the file `[0, 0]`. -/
def c1Part2 : ObjectPart := ⟨some crcZeroEnc, none, none, none, 2, 1⟩

/-- A descriptor exactly as the store would publish it for the file `[0, 0]`
uploaded in two one-byte parts with CRC32: correct per-part digests and the
correct composite digest
`base64(CRC32(CRC32(byte 0) ++ CRC32(byte 0))) = "3dfXlw=="`. -/
def c1Attrs : ObjectAttrs :=
  ⟨some ⟨some "3dfXlw==", none, none, none⟩, some ⟨false, [c1Part1, c1Part2], 2⟩, 2⟩

/-- One-part CRC32 fixture whose remote object digest carries the
directory-bucket part-count suffix: `"5HJq3g==" ++ "-1"`, where `"5HJq3g=="`
is the correct composite digest of the file `[0]` split into one part. -/
def c2Parts : List ObjectPart := [⟨some crcZeroEnc, none, none, none, 1, 1⟩]

/-- The descriptor of the suffix fixture. -/
def c2Attrs : ObjectAttrs :=
  ⟨some ⟨some "5HJq3g==-1", none, none, none⟩, some ⟨false, c2Parts, 1⟩, 1⟩

/-- A structurally invalid part listing: marked truncated, declared total part
count `7` for one part record, and its single part numbered `5`.  The digests
themselves are correct for the file `[0]`. -/
def c3PartsRec : ObjectParts := ⟨true, [⟨some crcZeroEnc, none, none, none, 5, 1⟩], 7⟩

/-- The descriptor wrapping the structurally invalid part listing. -/
def c3Attrs : ObjectAttrs :=
  ⟨some ⟨some "5HJq3g==", none, none, none⟩, some c3PartsRec, 1⟩

/-- A part whose SHA1 checksum field holds a string that cannot equal any
base64-encoded CRC32 digest, so its comparison fails. -/
def c4FailPart : ObjectPart := ⟨none, none, some "AAAA", none, 1, 1⟩

/-- A later part placed after the failing one. -/
def c4JunkPart : ObjectPart := ⟨some "JUNK", none, none, none, 2, 1⟩

/-- Two-part CRC32 fixture for the composite-digest claim: the part digests
are the ones the loop computes (part 2's covers the whole prefix `[0, 0]`),
and the remote object digest is the matching composite `"7OfM7A=="`. -/
def c5Parts : List ObjectPart :=
  [⟨some crcZeroEnc, none, none, none, 1, 1⟩,
   ⟨some "QdkS/w==", none, none, none, 2, 1⟩]

/-- The checksum descriptor of the composite fixture. -/
def c5ChecksumRec : Checksum := ⟨some "7OfM7A==", none, none, none⟩

/-- The full descriptor of the composite fixture. -/
def c5Attrs : ObjectAttrs := ⟨some c5ChecksumRec, some ⟨false, c5Parts, 2⟩, 2⟩

/-- A descriptor whose declared object size `5` differs from the size of the
one-byte local file. -/
def c7Attrs : ObjectAttrs := ⟨some ⟨none, none, some "abc", none⟩, none, 5⟩

/-- A descriptor record with all four checksum fields populated. -/
def c8W : Checksum := ⟨some "w", some "x", some "y", some "z"⟩

/-- A part record with all four checksum fields populated. -/
def c8WP : ObjectPart := ⟨some "w", some "x", some "y", some "z", 1, 0⟩

/-- A part record with no checksum field populated at all. -/
def c10NoFieldPart : ObjectPart := ⟨none, none, none, none, 1, 0⟩

/-- The part records appear in strictly increasing `partNumber` order (the
spec's reading of ascending part order). -/
def partsAscending : List ObjectPart → Bool
  | [] => true
  | [_] => true
  | a :: b :: rest => (a.partNumber < b.partNumber) && partsAscending (b :: rest)

/-- The per-part mismatch test compares the encoded digest against exactly the
populated checksum fields: it fires precisely when some populated field
differs. -/
theorem partFails_eq_any (enc : String) (p : ObjectPart) :
    partFails enc p = (populatedPartChecksums p).any (fun s => enc != s) := by
  rcases p with ⟨c32, c32c, s1, s256, pn, sz⟩
  cases s1 <;> cases s256 <;> cases c32 <;> cases c32c <;>
    simp [partFails, populatedPartChecksums, Bool.or_assoc]

/-- If every part of the list passes its comparison, the loop terminates with
the final comparison of the base64-encoded composite digest — the digest of
the concatenation of all per-part digest bytes absorbed so far — against the
remote object digest. -/
theorem verifyParts_allPass_eq (digest : List Byte → List Byte) (objSum : String)
    (f : List Byte) :
    ∀ (parts : List ObjectPart) (offset : Int) (hBuf ccBuf : List Byte),
    allPass digest f parts offset hBuf = true →
    verifyParts digest objSum f parts offset hBuf ccBuf =
      (if base64Encode (digest (ccBuf ++ (codePartSums digest f parts offset hBuf).flatten)) = objSum
       then Outcome.matchOk else Outcome.checksumMismatch) := by
  intro parts
  induction parts with
  | nil =>
    intro offset hBuf ccBuf _
    simp [verifyParts, codePartSums]
  | cons q qs ih =>
    intro offset hBuf ccBuf hall
    rw [allPass, Bool.and_eq_true] at hall
    obtain ⟨hq, hrest⟩ := hall
    rw [Bool.not_eq_true'] at hq
    rw [verifyParts, codePartSums]
    simp only [hq, if_false, Bool.false_eq_true]
    rw [ih _ _ _ hrest]
    simp [List.append_assoc]

/-- C1: the claim says each part is hashed by a fresh hash instance, so the
digest reported and compared for part k covers exactly the bytes
`[offset, offset+sizeBytes)`.  The code instead reuses the single instance `h`
across the loop without calling `Reset`, so part k's digest covers all bytes
`[0, offset+sizeBytes)`.  Concretely: for the file `[0, 0]` in two one-byte
parts with correct per-part CRC32 digests (each part's remote digest is the
digest of exactly its own byte range) and the correct composite digest, the
engine reports a mismatch at part 2 over bytes `[1, 2)` instead of a match,
because the digest it computes for part 2 is `CRC32 [0, 0] ≠ CRC32 [0]`. -/
theorem c1_per_part_digest_not_fresh :
    c1Part1.checksumCRC32 = some (base64Encode (crc32Digest (sectionRead [0, 0] 0 1))) ∧
    c1Part2.checksumCRC32 = some (base64Encode (crc32Digest (sectionRead [0, 0] 1 1))) ∧
    crc32Digest [0, 0] ≠ crc32Digest [0] ∧
    verify dummyDigest dummyDigest c1Attrs [0, 0] = Outcome.partMismatch 2 1 2 := by
  refine ⟨by decide, by decide, by decide, by decide⟩

/-- C2, counterexample: the claim says that when the candidate composite
digest's encoded length differs from the remote digest's length, the suffix
`-<numParts>` is appended before the final comparison (which would make this
fixture match: the remote digest is exactly the candidate followed by `-1`).
The code never appends any suffix and reports a mismatch. -/
theorem c2_counterexample :
    (base64Encode (crc32Digest (crc32Digest [0]))).length ≠ ("5HJq3g==-1" : String).length ∧
    base64Encode (crc32Digest (crc32Digest [0])) ++ "-1" = "5HJq3g==-1" ∧
    verify dummyDigest dummyDigest c2Attrs [0] = Outcome.checksumMismatch := by
  refine ⟨by decide, by decide, by decide⟩

/-- C2, amended: no suffix is ever appended — the final comparison always uses
the bare base64-encoded composite digest, so whenever its length differs from
the remote digest's length the multipart outcome is necessarily a mismatch
(with the claimed suffix rule, such a run could still match). -/
theorem c2_amended_no_suffix (sha1D sha256D : List Byte → List Byte)
    (attrs : ObjectAttrs) (c : Checksum) (op : ObjectParts) (objSum : String)
    (digest : List Byte → List Byte) (f : List Byte)
    (hc : attrs.checksum = some c)
    (hsz : attrs.objectSize = (f.length : Int))
    (hsel : selectChecksum sha1D sha256D c = some (objSum, digest))
    (hop : attrs.objectParts = some op)
    (hall : allPass digest f op.parts 0 [] = true)
    (hlen : (base64Encode (digest (codePartSums digest f op.parts 0 []).flatten)).length ≠ objSum.length) :
    verify sha1D sha256D attrs f = Outcome.checksumMismatch := by
  rcases attrs with ⟨acs, aop, aosz⟩
  cases hc
  cases hop
  simp only [verify]
  simp only at hsz
  rw [if_pos hsz]
  simp only [verifyChecksums, hsel]
  rw [verifyParts_allPass_eq digest objSum f op.parts 0 [] [] hall]
  rw [if_neg]
  intro he
  rw [List.nil_append] at he
  exact hlen (congrArg String.length he)

/-- C2, witness for the amended claim at a concrete input: a one-part run
whose remote digest carries a `-1` suffix (so the lengths differ) ends in a
mismatch. -/
theorem c2_amended_no_suffix_witness :
    allPass crc32Digest [0] c2Parts 0 [] = true ∧
    (base64Encode (crc32Digest (codePartSums crc32Digest [0] c2Parts 0 []).flatten)).length ≠ ("5HJq3g==-1" : String).length ∧
    verify dummyDigest dummyDigest c2Attrs [0] = Outcome.checksumMismatch :=
  ⟨by decide, by decide,
   c2_amended_no_suffix dummyDigest dummyDigest c2Attrs _ ⟨false, c2Parts, 1⟩ _ _ [0]
     rfl rfl rfl rfl (by decide) (by decide)⟩

/-- C3, counterexample: the claim says the engine validates, before hashing,
that the declared total part count matches, that the listing is not truncated,
and that part numbers are gap-free from 1, turning any violation into a
structural error.  This fixture violates all three (truncated flag set,
declared count 7 for one record, single part numbered 5), yet the engine
happily verifies it to a match. -/
theorem c3_counterexample :
    c3Attrs.objectParts = some c3PartsRec ∧
    c3PartsRec.isTruncated = true ∧
    c3PartsRec.totalPartsCount ≠ (c3PartsRec.parts.length : Int) ∧
    c3PartsRec.parts.map ObjectPart.partNumber = [5] ∧
    verify dummyDigest dummyDigest c3Attrs [0] = Outcome.matchOk := by
  refine ⟨by decide, by decide, by decide, by decide, by decide⟩

/-- C3, amended: the multipart path performs no structural validation of the
part listing — the outcome is entirely independent of the declared total part
count and of the truncation flag (and, per the counterexample, part numbers
are never checked either; they only label a reported mismatch). -/
theorem c3_amended_no_structural_validation (sha1D sha256D : List Byte → List Byte)
    (cs : Option Checksum) (parts : List ObjectPart) (tpc tpc2 : Int)
    (tr tr2 : Bool) (osz : Int) (f : List Byte) :
    verify sha1D sha256D ⟨cs, some ⟨tr, parts, tpc⟩, osz⟩ f =
    verify sha1D sha256D ⟨cs, some ⟨tr2, parts, tpc2⟩, osz⟩ f := rfl

/-- C4: when the first failing part is reached, the loop stops with a
mismatch outcome carrying that part's number and the byte range
`[offset, offset+size)` at which it starts; the parts after it (`parts2`) are
arbitrary and do not influence the outcome — no later part is read or
hashed. -/
theorem c4_fail_fast (digest : List Byte → List Byte) (objSum : String)
    (f : List Byte) (parts1 : List ObjectPart) (part : ObjectPart)
    (parts2 : List ObjectPart) (offset : Int) (hBuf ccBuf : List Byte)
    (h1 : allPass digest f parts1 offset hBuf = true)
    (h2 : partFails (base64Encode (digest (endBuf f offset hBuf parts1 ++
          sectionRead f (endOffset offset parts1) part.size))) part = true) :
    verifyParts digest objSum f (parts1 ++ part :: parts2) offset hBuf ccBuf =
      Outcome.partMismatch part.partNumber (endOffset offset parts1)
        (endOffset offset parts1 + part.size) := by
  induction parts1 generalizing offset hBuf ccBuf with
  | nil =>
    rw [List.nil_append, verifyParts]
    rw [endBuf, endOffset] at h2
    simp only [h2, if_true]
    rw [endOffset]
  | cons q qs ih =>
    rw [allPass, Bool.and_eq_true] at h1
    obtain ⟨hq, hrest⟩ := h1
    rw [Bool.not_eq_true'] at hq
    rw [List.cons_append, verifyParts]
    simp only [hq, if_false, Bool.false_eq_true]
    rw [endBuf, endOffset] at h2
    rw [endOffset]
    exact ih _ _ _ hrest h2

/-- C4, witness: with no preceding parts, a part whose SHA1 field cannot match
fails immediately at byte range `[0, 1)`, and the junk part after it never
matters. -/
theorem c4_fail_fast_witness :
    allPass crc32Digest [0, 0] [] 0 [] = true ∧
    partFails (base64Encode (crc32Digest (endBuf [0, 0] 0 [] [] ++
      sectionRead [0, 0] (endOffset 0 []) c4FailPart.size))) c4FailPart = true ∧
    verifyParts crc32Digest "X" [0, 0] ([] ++ c4FailPart :: [c4JunkPart]) 0 [] [] =
      Outcome.partMismatch 1 0 1 :=
  ⟨by decide, by decide,
   c4_fail_fast crc32Digest "X" [0, 0] [] c4FailPart [c4JunkPart] 0 [] []
     (by decide) (by decide)⟩

/-- C5: when every part passes its comparison, the outcome of the run is
decided by exact string equality between the remote whole-object digest and
the candidate composite digest: the base64 encoding of the selected
algorithm's digest over the concatenation of the raw (not base64-encoded)
digest bytes computed for the parts, in listing order (equal to ascending
part order under the `hasc` hypothesis).  `codePartSums` is the sequence of
digests the loop computes and reports per part. -/
theorem c5_composite (sha1D sha256D : List Byte → List Byte)
    (attrs : ObjectAttrs) (c : Checksum) (op : ObjectParts) (objSum : String)
    (digest : List Byte → List Byte) (f : List Byte)
    (hc : attrs.checksum = some c)
    (hsz : attrs.objectSize = (f.length : Int))
    (hsel : selectChecksum sha1D sha256D c = some (objSum, digest))
    (hop : attrs.objectParts = some op)
    (_hasc : partsAscending op.parts = true)
    (hall : allPass digest f op.parts 0 [] = true) :
    verify sha1D sha256D attrs f =
      (if base64Encode (digest (codePartSums digest f op.parts 0 []).flatten) = objSum
       then Outcome.matchOk else Outcome.checksumMismatch) := by
  rcases attrs with ⟨acs, aop, aosz⟩
  cases hc
  cases hop
  simp only [verify]
  simp only at hsz
  rw [if_pos hsz]
  simp only [verifyChecksums, hsel]
  rw [verifyParts_allPass_eq digest objSum f op.parts 0 [] [] hall]
  rw [List.nil_append]

/-- C5, witness: the two-part fixture whose remote digests equal the digests
the loop computes, with the matching composite digest, ends in a match, and
the composite comparison is exactly the one stated. -/
theorem c5_composite_witness :
    partsAscending c5Parts = true ∧
    allPass crc32Digest [0, 0] c5Parts 0 [] = true ∧
    verify dummyDigest dummyDigest c5Attrs [0, 0] =
      (if base64Encode (crc32Digest (codePartSums crc32Digest [0, 0] c5Parts 0 []).flatten) = "7OfM7A=="
       then Outcome.matchOk else Outcome.checksumMismatch) ∧
    verify dummyDigest dummyDigest c5Attrs [0, 0] = Outcome.matchOk :=
  ⟨by decide, by decide,
   c5_composite dummyDigest dummyDigest c5Attrs c5ChecksumRec ⟨false, c5Parts, 2⟩
     "7OfM7A==" crc32Digest [0, 0] rfl rfl rfl rfl (by decide) (by decide),
   by decide⟩

/-- C6: algorithm selection tests the four fields in the fixed order SHA1,
SHA256, CRC32, CRC32C and returns the first populated field's algorithm; with
no populated field it fails with the structural error message. -/
theorem c6_algorithm_selection (v : Checksum) :
    getChecksumAlgorithm v =
      (match specFirstAlgorithm v with
       | some a => GoResult.ok a
       | none => GoResult.errMsg "unsupported checksum algorithm") := by
  rcases v with ⟨c32, c32c, s1, s256⟩
  cases s1 <;> cases s256 <;> cases c32 <;> cases c32c <;> rfl

/-- C7: with a checksum descriptor present, the run short-circuits to the
object-size-mismatch outcome whenever the declared object size differs from
the local file size — before any hashing, as the outcome is a constant
independent of the digest functions and the file contents — and when the
sizes agree the check changes nothing: the run continues with the selection
and hashing stages. -/
theorem c7_size_short_circuit (sha1D sha256D : List Byte → List Byte)
    (attrs : ObjectAttrs) (c : Checksum) (f : List Byte)
    (hc : attrs.checksum = some c) :
    (attrs.objectSize ≠ (f.length : Int) →
      verify sha1D sha256D attrs f =
        Outcome.objectSizeMismatch attrs.objectSize (f.length : Int)) ∧
    (attrs.objectSize = (f.length : Int) →
      verify sha1D sha256D attrs f = verifyChecksums sha1D sha256D c attrs.objectParts f) := by
  rcases attrs with ⟨acs, aop, aosz⟩
  cases hc
  constructor
  · intro hne
    simp only [verify]
    simp only at hne
    rw [if_neg hne]
  · intro he
    simp only [verify]
    simp only at he
    rw [if_pos he]

/-- C7, witness: declared size 5 against a one-byte file short-circuits. -/
theorem c7_size_short_circuit_witness :
    verify dummyDigest dummyDigest c7Attrs [0] = Outcome.objectSizeMismatch 5 1 :=
  (c7_size_short_circuit dummyDigest dummyDigest c7Attrs ⟨none, none, some "abc", none⟩ [0] rfl).1
    (by decide)

/-- C8, counterexample: the claim says the digest lookups fail with a
structural error, rather than crashing, when the expected field is absent.
The code dereferences the field pointer without a nil check: on a record with
no fields and the already-selected SHA1 algorithm, both lookups hit a
nil-pointer dereference (a runtime panic), not an error return. -/
theorem c8_counterexample :
    getChecksum ⟨none, none, none, none⟩ algSHA1 = GoResult.nilDeref ∧
    getPartChecksum ⟨none, none, none, none, 1, 0⟩ algSHA1 = GoResult.nilDeref := by
  refine ⟨by decide, by decide⟩

/-- C8, amended: for each supported algorithm the lookups return the field's
string when it is present and crash with a nil-pointer dereference when it is
absent; only an unsupported algorithm value produces an error return. -/
theorem c8_amended_lookup (v : Checksum) (p : ObjectPart) :
    getChecksum v algSHA1 = optResult v.checksumSHA1 ∧
    getChecksum v algSHA256 = optResult v.checksumSHA256 ∧
    getChecksum v algCRC32 = optResult v.checksumCRC32 ∧
    getChecksum v algCRC32C = optResult v.checksumCRC32C ∧
    getPartChecksum p algSHA1 = optResult p.checksumSHA1 ∧
    getPartChecksum p algSHA256 = optResult p.checksumSHA256 ∧
    getPartChecksum p algCRC32 = optResult p.checksumCRC32 ∧
    getPartChecksum p algCRC32C = optResult p.checksumCRC32C ∧
    (∀ a : String, a ≠ algSHA1 → a ≠ algSHA256 → a ≠ algCRC32 → a ≠ algCRC32C →
      getChecksum v a = GoResult.errMsg ("unsupported checksum algorithm, " ++ a) ∧
      getPartChecksum p a = GoResult.errMsg ("unsupported checksum algorithm, " ++ a)) := by
  refine ⟨?_, ?_, ?_, ?_, ?_, ?_, ?_, ?_, ?_⟩
  · cases h : v.checksumSHA1 <;> simp [getChecksum, optResult, h]
  · cases h : v.checksumSHA256 <;> simp [getChecksum, optResult, algSHA1, algSHA256, h]
  · cases h : v.checksumCRC32 <;> simp [getChecksum, optResult, algSHA1, algSHA256, algCRC32, h]
  · cases h : v.checksumCRC32C <;>
      simp [getChecksum, optResult, algSHA1, algSHA256, algCRC32, algCRC32C, h]
  · cases h : p.checksumSHA1 <;> simp [getPartChecksum, optResult, h]
  · cases h : p.checksumSHA256 <;> simp [getPartChecksum, optResult, algSHA1, algSHA256, h]
  · cases h : p.checksumCRC32 <;>
      simp [getPartChecksum, optResult, algSHA1, algSHA256, algCRC32, h]
  · cases h : p.checksumCRC32C <;>
      simp [getPartChecksum, optResult, algSHA1, algSHA256, algCRC32, algCRC32C, h]
  · intro a h1 h2 h3 h4
    rw [getChecksum, getPartChecksum, if_neg h1, if_neg h2, if_neg h3, if_neg h4,
      if_neg h1, if_neg h2, if_neg h3, if_neg h4]
    exact ⟨rfl, rfl⟩

/-- C8, witness for the amended claim: on a fully populated record, the SHA1
lookup returns the SHA1 field, and an unsupported algorithm string gets an
error return. -/
theorem c8_amended_lookup_witness :
    getChecksum c8W algSHA1 = GoResult.ok "y" ∧
    getChecksum c8W "MD5" = GoResult.errMsg "unsupported checksum algorithm, MD5" := by
  have h := c8_amended_lookup c8W c8WP
  exact ⟨h.1, (h.2.2.2.2.2.2.2.2 "MD5" (by decide) (by decide) (by decide) (by decide)).1⟩

/-- C9: the verification engine is a pure function of the descriptor and the
stream contents, so running it twice on the same pair yields the same
outcome. -/
theorem c9_deterministic (sha1D sha256D : List Byte → List Byte)
    (attrs : ObjectAttrs) (f : List Byte) :
    verify sha1D sha256D attrs f = verify sha1D sha256D attrs f := rfl

/-- C10: the loop's mismatch test compares the computed encoded digest against
exactly the populated checksum fields of the part record (any populated field
that differs fires it), and a part with no populated checksum field never
fails: the loop continues past it as a match. -/
theorem c10_part_comparison (enc : String) (p : ObjectPart) :
    partFails enc p = (populatedPartChecksums p).any (fun s => enc != s) ∧
    (populatedPartChecksums p = [] → ∀ (digest : List Byte → List Byte)
      (objSum : String) (f : List Byte) (rest : List ObjectPart)
      (offset : Int) (hBuf ccBuf : List Byte),
      verifyParts digest objSum f (p :: rest) offset hBuf ccBuf =
        verifyParts digest objSum f rest (offset + p.size)
          (hBuf ++ sectionRead f offset p.size)
          (ccBuf ++ digest (hBuf ++ sectionRead f offset p.size))) := by
  refine ⟨partFails_eq_any enc p, ?_⟩
  intro hempty digest objSum f rest offset hBuf ccBuf
  have hfail : partFails (base64Encode (digest (hBuf ++ sectionRead f offset p.size))) p = false := by
    rw [partFails_eq_any, hempty]
    rfl
  rw [verifyParts]
  simp only [hfail, if_false, Bool.false_eq_true]

/-- C10, witness: a part with no checksum fields is skipped over as matching:
the loop on it reduces to the loop on the remaining parts. -/
theorem c10_part_comparison_witness :
    populatedPartChecksums c10NoFieldPart = [] ∧
    verifyParts crc32Digest "x" [] (c10NoFieldPart :: []) 0 [] [] =
      verifyParts crc32Digest "x" [] [] (0 + c10NoFieldPart.size)
        ([] ++ sectionRead [] 0 c10NoFieldPart.size)
        ([] ++ crc32Digest ([] ++ sectionRead [] 0 c10NoFieldPart.size)) :=
  ⟨by decide,
   (c10_part_comparison "AA" c10NoFieldPart).2 (by decide) crc32Digest "x" [] [] 0 [] []⟩

end S3Verify
